import Mathlib

/-!
Shallow embedding of the tool-gating core of the docker-swarm-mcp server.

Sources embedded here:
* `app/mcp/tool_gating.py` — `Tool`, `FilterContext`, `TaskTypeFilter`,
  `ResourceFilter`, `SecurityFilter`, `FilterConfig`,
  `ToolGateController.get_available_tools`, `ToolGateController.get_context_size`.
* `app/mcp/intent_classifier.py` — `KeywordIntentClassifier.classify_intent`
  and `_matches_keywords`.
* `app/mcp/fastapi_mcp_integration.py` — the session-gating parts of
  `DynamicToolGatingMCP.handle_tools_list` and `handle_tools_call`.

Python dicts are modelled as association lists in insertion order with the
keys distinct in every state the program builds; dict comprehensions become
`List.filter`, `dict.get(k, d)` becomes `(l.lookup k).getD d`, and
`d[k] = v` becomes `updateSession`.  Python string truthiness (`if s:`)
is `strTruthy` / `listTruthy`.  The runtime `settings` object is passed
explicitly as a `Settings` value.
-/

namespace DockerSwarmMCP

/-- Embedding of the `Settings` fields consulted by the gating code
(`app/core/config.py`).  `INTENT_PRECEDENCE` is the literal string
concerned, either "intent" or "explicit". -/
structure Settings where
  STRICT_CONTEXT_LIMIT : Bool
  INTENT_FALLBACK_TO_ALL : Bool
  INTENT_CLASSIFICATION_ENABLED : Bool
  INTENT_PRECEDENCE : String
deriving DecidableEq, BEq

/-- Embedding of the pydantic `Tool` model (`tool_gating.py`).  The
`method`, `path`, `request_schema` and `response_schema` fields are
omitted: no operation embedded here reads them (schema validation in
`handle_tools_call` happens after the session-gating and scope checks
that the development covers). -/
structure Tool where
  name : String
  description : String
  task_types : List String
  priority : Int := 0
  required_scopes : Option (List String) := none
deriving DecidableEq, BEq

/-- Embedding of the pydantic `FilterContext` model (`tool_gating.py`).
The `intent_confidence` field (a float dict) is omitted: no embedded
code path reads it. -/
structure FilterContext where
  task_type : Option String := none
  client_id : Option String := none
  session_id : Option String := none
  request_id : String
  query : Option String := none
  detected_task_types : Option (List String) := none
deriving DecidableEq, BEq

/-- Python truthiness of an optional string: `None` and `""` are falsy. -/
def strTruthy : Option String → Bool
  | none => false
  | some s => !s.data.isEmpty

/-- Python truthiness of an optional list: `None` and `[]` are falsy. -/
def listTruthy : Option (List String) → Bool
  | none => false
  | some l => !l.isEmpty

/-- Python `a or b` on optional strings: yields `a` when truthy, else `b`. -/
def pyOrStr (a b : Option String) : Option String :=
  if strTruthy a then a else b

/-- `TaskTypeFilter._merge_allowlists`: the source collects the per-task-type
allowlists into a Python set and returns it as a list.  The model keeps the
concatenation instead; it has the same members and is empty exactly when the
set is, and the caller only tests membership and emptiness. -/
def mergeAllowlists (task_type_allowlists : List (String × List String))
    (task_types : List String) : List String :=
  (task_types.map fun tt => ((task_type_allowlists.lookup tt).getD [])).flatten

/-- `TaskTypeFilter.apply` (`tool_gating.py` lines 46-144), with the
`settings` object and the constructor argument `task_type_allowlists`
passed explicitly. -/
def TaskTypeFilter.apply (s : Settings)
    (task_type_allowlists : List (String × List String))
    (tools : List (String × Tool)) (context : FilterContext) :
    List (String × Tool) :=
  -- strict no-match short-circuit, evaluated before precedence resolution
  if context.query.isSome && (context.detected_task_types == some ([] : List String)) &&
      (s.STRICT_CONTEXT_LIMIT || !s.INTENT_FALLBACK_TO_ALL) then
    []
  else
    -- determine which task types to use based on INTENT_PRECEDENCE
    let task_types_to_use : List String :=
      if s.INTENT_PRECEDENCE == "intent" then
        if listTruthy context.detected_task_types then context.detected_task_types.getD []
        else if strTruthy context.task_type then [context.task_type.getD ""]
        else []
      else
        if strTruthy context.task_type then [context.task_type.getD ""]
        else if listTruthy context.detected_task_types then context.detected_task_types.getD []
        else []
    if task_types_to_use.isEmpty then
      -- no task type: exclude meta-ops tools from the default list
      tools.filter fun p => !(p.2.task_types.contains "meta-ops")
    else
      let merged_allowlist := mergeAllowlists task_type_allowlists task_types_to_use
      if merged_allowlist.isEmpty then
        if s.STRICT_CONTEXT_LIMIT || !s.INTENT_FALLBACK_TO_ALL then [] else tools
      else
        tools.filter fun p =>
          merged_allowlist.contains p.1 &&
          task_types_to_use.any fun tt => p.2.task_types.contains tt

/-- Lexicographic order on character lists by code point; this is how
Python compares the `str` names used as sort tie-breakers. -/
def charListLe : List Char → List Char → Bool
  | [], _ => true
  | _ :: _, [] => false
  | a :: as, b :: bs => decide (a < b) || (decide (a = b) && charListLe as bs)

/-- The comparison `sorted(tools.items(), key=lambda x: (-x[1].priority, x[0]))`
performs: descending priority, ties broken by ascending name. -/
def toolSortLe (a b : String × Tool) : Bool :=
  decide (b.2.priority < a.2.priority) ||
    (decide (a.2.priority = b.2.priority) && charListLe a.1.data b.1.data)

/-- `toolSortLe` as a decidable relation for `List.insertionSort`. -/
def toolSortRel (a b : String × Tool) : Prop := toolSortLe a b = true

instance : DecidableRel toolSortRel := fun _ _ => instDecidableEqBool _ _

/-- The sort in `ResourceFilter.apply`.  Python's `sorted` is a stable sort
by the key `(-priority, name)`; `List.insertionSort` with the reflexive
key order `toolSortRel` is stable in the same sense, so the two agree on
every input (and the key order is already antisymmetric on the distinct
dict keys the program feeds it). -/
def sortToolItems (tools : List (String × Tool)) : List (String × Tool) :=
  List.insertionSort toolSortRel tools

/-- `ResourceFilter.apply` (`tool_gating.py` lines 174-192), with the
constructor argument `max_tools` passed explicitly. -/
def ResourceFilter.apply (max_tools : Nat) (tools : List (String × Tool)) :
    List (String × Tool) :=
  if tools.length ≤ max_tools then tools
  else (sortToolItems tools).take max_tools

/-- `SecurityFilter.apply` (`tool_gating.py` lines 205-232), with the
constructor argument `blocklist` passed explicitly (the source stores it
as a set; only membership is tested). -/
def SecurityFilter.apply (blocklist : List String)
    (tools : List (String × Tool)) : List (String × Tool) :=
  tools.filter fun p => !(blocklist.contains p.1)

/-- Embedding of the pydantic `FilterConfig` model (`tool_gating.py`). -/
structure FilterConfig where
  task_type_allowlists : List (String × List String)
  max_tools : Nat
  blocklist : List String
deriving DecidableEq, BEq

/-- Python dict equality (`tools != tools_before` in
`get_available_tools`): same size and same value under every key. -/
def dictBeq (a b : List (String × Tool)) : Bool :=
  a.length == b.length && a.all fun p => b.lookup p.1 == some p.2

/-- `ToolGateController.get_available_tools` (`tool_gating.py` lines
268-292): the fixed pipeline TaskTypeFilter → ResourceFilter →
SecurityFilter, also reporting which stages changed the tool dict. -/
def ToolGateController.get_available_tools (s : Settings) (config : FilterConfig)
    (all_tools : List (String × Tool)) (context : FilterContext) :
    List (String × Tool) × List String :=
  let t1 := TaskTypeFilter.apply s config.task_type_allowlists all_tools context
  let f1 : List String := if dictBeq t1 all_tools then [] else ["TaskTypeFilter"]
  let t2 := ResourceFilter.apply config.max_tools t1
  let f2 := if dictBeq t2 t1 then f1 else f1 ++ ["ResourceFilter"]
  let t3 := SecurityFilter.apply config.blocklist t2
  let f3 := if dictBeq t3 t2 then f2 else f2 ++ ["SecurityFilter"]
  (t3, f3)

/-- The token-count estimate inside `ToolGateController.get_context_size`
(`tool_gating.py` lines 322-338): the sum of the precomputed per-tool
sizes when the cache is usable, otherwise the serialization-based
estimate, abstracted as the function `serialEstimate` (it is
`len(json.dumps(...))//4`, or a tiktoken count under DEBUG). -/
def contextTokenCount (tool_sizes : List (String × Nat))
    (estimator_fallback : Bool)
    (serialEstimate : List (String × Tool) → Nat)
    (tools : List (String × Tool)) : Nat :=
  if !tool_sizes.isEmpty && !estimator_fallback then
    (tools.map fun p => ((tool_sizes.lookup p.1).getD 0)).sum
  else
    serialEstimate tools

/-- The message of the `ValueError` raised by `get_context_size`. -/
def hardLimitMsg : String :=
  "Context size exceeds hard limit of 7600 tokens"

/-- `ToolGateController.get_context_size` (`tool_gating.py` lines
303-374).  `strict_setting` is `settings.STRICT_CONTEXT_LIMIT`;
`tool_sizes` and `estimator_fallback` are the state written by
`_precompute_tool_sizes`.  The raised `ValueError` is modelled as
`Except.error`; the warn-threshold branch only logs, so it is the
identity on the returned count. -/
def ToolGateController.get_context_size (strict_setting : Bool)
    (tool_sizes : List (String × Nat)) (estimator_fallback : Bool)
    (serialEstimate : List (String × Tool) → Nat)
    (tools : List (String × Tool)) (enforce_hard_limit : Option Bool) :
    Except String Nat :=
  let enforce := enforce_hard_limit.getD strict_setting
  let token_count := contextTokenCount tool_sizes estimator_fallback serialEstimate tools
  if 7600 < token_count then
    if !enforce then
      -- graceful degradation: log only, fall through to the warn check
      Except.ok token_count
    else
      Except.error hardLimitMsg
  else
    Except.ok token_count

/-! ### Intent classifier (`app/mcp/intent_classifier.py`) -/

/-- Python `str.strip()` on a character list (the queries concerned are
ASCII, where Lean's whitespace test coincides with Python's). -/
def pyStrip (l : List Char) : List Char :=
  ((l.dropWhile Char.isWhitespace).reverse.dropWhile Char.isWhitespace).reverse

/-- `needle` occurs at the head of `hay` (character-exact). -/
def listStartsWith : List Char → List Char → Bool
  | [], _ => true
  | _ :: _, [] => false
  | a :: as, b :: bs => a = b && listStartsWith as bs

/-- Python substring test `needle in hay`. -/
def containsSub (needle : List Char) : List Char → Bool
  | [] => listStartsWith needle []
  | c :: rest => listStartsWith needle (c :: rest) || containsSub needle rest

/-- A regex word character (`\w`): the inputs concerned are ASCII, where
this is letters, digits and the underscore. -/
def isWordChar (c : Char) : Bool := c.isAlphanum || c = '_'

/-- Whether a regex word boundary `\b` sits between two adjacent
positions, given the character on each side (`none` at either end of the
string). -/
def boundaryB (a b : Option Char) : Bool :=
  (a.elim false isWordChar) != (b.elim false isWordChar)

/-- The escaped keyword `kw` matches at the start of `rest` with a `\b`
on both sides; `lastPre` is the character immediately before `rest`. -/
def matchesWBAt (kw : List Char) (lastPre : Option Char) (rest : List Char) : Bool :=
  listStartsWith kw rest &&
  boundaryB lastPre kw.head? &&
  boundaryB kw.getLast? (rest.drop kw.length).head?

/-- Scan of `re.search` over every position of the remaining text. -/
def searchWBAux (kw : List Char) (lastPre : Option Char) : List Char → Bool
  | [] => matchesWBAt kw lastPre []
  | c :: rest => matchesWBAt kw lastPre (c :: rest) || searchWBAux kw (some c) rest

/-- Python `re.search(r'\b' + re.escape(kw) + r'\b', q) is not None` for a
literal (escaped) keyword `kw`. -/
def wordBoundarySearch (kw q : List Char) : Bool :=
  searchWBAux kw none q

/-- The number of words `len(s.split())` yields in Python: maximal
nonempty runs of non-whitespace.  The flag records whether the scan is
inside a run. -/
def countWords : List Char → Bool → Nat
  | [], _ => 0
  | c :: rest, inWord =>
    if c.isWhitespace then countWords rest false
    else (if inWord then 0 else 1) + countWords rest true

/-- `KeywordIntentClassifier._matches_keywords` (`intent_classifier.py`
lines 76-98): `query` is the already lowercased and stripped text; each
keyword matches by substring containment, or — when it is a single word —
by the word-boundary regex. -/
def matchesKeywords (query : List Char) (keywords : List String) : Bool :=
  keywords.any fun keyword =>
    containsSub (keyword.data.map Char.toLower) query ||
    (countWords keyword.data false == 1 &&
      wordBoundarySearch (keyword.data.map Char.toLower) query)

/-- `KeywordIntentClassifier.classify_intent` (`intent_classifier.py`
lines 51-74), with the constructor's `keyword_mappings` passed
explicitly; returns the task types whose keyword list matches, in
mapping order. -/
def classify_intent (keyword_mappings : List (String × List String))
    (query : String) : List String :=
  if query.data.isEmpty || (pyStrip query.data).isEmpty then []
  else
    let query_lower := pyStrip (query.data.map Char.toLower)
    (keyword_mappings.filter fun p => matchesKeywords query_lower p.2).map Prod.fst

/-! ### MCP handlers (`app/mcp/fastapi_mcp_integration.py`) -/

/-- Python dict assignment `d[k] = v`: replace in place when the key is
present (keys are unique in every state the program builds), else append. -/
def updateSession : List (String × List (String × Tool)) → String →
    List (String × Tool) → List (String × List (String × Tool))
  | [], k, v => [(k, v)]
  | (k', v') :: rest, k, v =>
    if k' = k then (k, v) :: rest else (k', v') :: updateSession rest k v

/-- `tool.required_scopes or tool.task_types` / `tool.required_scopes if
tool.required_scopes else tool.task_types`: Python truthiness makes both
`None` and `[]` fall back to `task_types`. -/
def effectiveScopes (t : Tool) : List String :=
  match t.required_scopes with
  | some (x :: xs) => x :: xs
  | _ => t.task_types

/-- The scope-based filter inside `handle_tools_list` (lines 374-383):
keep the tools one of whose effective scopes the caller holds. -/
def scopeFilterTools (scopes : List String) (tools : List (String × Tool)) :
    List (String × Tool) :=
  tools.filter fun p => (effectiveScopes p.2).any fun sc => scopes.contains sc

/-- The classification preamble of `handle_tools_list` (lines 287-322):
resolves the effective `task_type`, `query`, `detected_task_types` and
the `classification_method` string.  The intent classifier attribute is
`none` when the server was built without one. -/
def resolveClassification (s : Settings)
    (classifier : Option (String → List String))
    (params_task_type params_query task_type_header : Option String) :
    Option String × Option String × Option (List String) × String :=
  let task_type := pyOrStr task_type_header params_task_type
  let query := params_query
  if strTruthy query && classifier.isSome && s.INTENT_CLASSIFICATION_ENABLED then
    let detected := (classifier.getD fun _ => []) (query.getD "")
    let task_type := if s.INTENT_PRECEDENCE == "intent" then none else task_type
    (task_type, query, some detected, "intent")
  else if strTruthy query && !s.INTENT_CLASSIFICATION_ENABLED then
    (task_type, query, none, "none")
  else if strTruthy task_type then
    (task_type, query, none, "explicit")
  else
    (task_type, query, none, "none")

/-- The `no_match_strict` condition of `handle_tools_list` (lines
325-331). -/
def noMatchStrict (s : Settings) (query : Option String) (method : String)
    (detected : Option (List String)) : Bool :=
  query.isSome && (method == "intent") && (detected == some ([] : List String)) &&
    (s.STRICT_CONTEXT_LIMIT || !s.INTENT_FALLBACK_TO_ALL)

/-- `DynamicToolGatingMCP.handle_tools_list` (lines 257-434), reduced to
its state effect and returned tool dict: the strict no-match path
returns the empty set at once (lines 333-360); otherwise the gating
pipeline runs, the scope filter applies when the caller has a non-empty
scope set without "admin", and the result is stored against the session
(line 386) and returned.  The response metadata, logging and the
context-size computation after the store are omitted. -/
def handle_tools_list (s : Settings)
    (classifier : Option (String → List String)) (config : FilterConfig)
    (all_tools : List (String × Tool))
    (params_task_type params_query task_type_header : Option String)
    (request_id session_id : String) (scopes : List String)
    (session_tools : List (String × List (String × Tool))) :
    List (String × List (String × Tool)) × List (String × Tool) :=
  let r := resolveClassification s classifier params_task_type params_query task_type_header
  let task_type := r.1
  let query := r.2.1
  let detected := r.2.2.1
  let method := r.2.2.2
  if noMatchStrict s query method detected then
    (session_tools, [])
  else
    let context : FilterContext :=
      { task_type := task_type, client_id := none, session_id := some session_id,
        request_id := request_id, query := query, detected_task_types := detected }
    let filtered := (ToolGateController.get_available_tools s config all_tools context).1
    let filtered :=
      if !scopes.isEmpty && !scopes.contains "admin" then scopeFilterTools scopes filtered
      else filtered
    (updateSession session_tools session_id filtered, filtered)

/-- Outcome of the gating stages of `handle_tools_call`, up to and
including the scope validation.  The later stages (request-schema
validation, service dispatch, execution, response-schema validation)
run only from the `proceed` state, so a `sessionGateBlocked` outcome in
particular returns before any service function is reached. -/
inductive CallGateResult where
  | invalidParams (code : Int)
  | sessionGateBlocked (code : Int) (available_tools : List String)
  | scopeBlocked (code : Int)
  | proceed (tool : Tool)
deriving DecidableEq, BEq

/-- The gating prefix of `DynamicToolGatingMCP.handle_tools_call` (lines
699-750): missing name check, session-gating membership check with the
fallback to the registry's full tool dict when the session binding is
missing or empty, then the scope validation. -/
def handle_tools_call_gate (session_tools : List (String × List (String × Tool)))
    (registry_all_tools : List (String × Tool)) (session_id : String)
    (tool_name : Option String) (scopes : List String) : CallGateResult :=
  match tool_name with
  | none => CallGateResult.invalidParams (-32602)
  | some name =>
    let session_filtered_tools := (session_tools.lookup session_id).getD []
    let session_filtered_tools :=
      if session_filtered_tools.isEmpty then registry_all_tools
      else session_filtered_tools
    match session_filtered_tools.lookup name with
    | none =>
      CallGateResult.sessionGateBlocked (-32601) (session_filtered_tools.map Prod.fst)
    | some tool =>
      if !scopes.isEmpty && !scopes.contains "admin" &&
          !((effectiveScopes tool).any fun sc => scopes.contains sc) then
        CallGateResult.scopeBlocked (-32601)
      else
        CallGateResult.proceed tool

/-! ### Sample values for concrete instantiations -/

/-- A Docker-operations tool, as the registry would load from `tools.yaml`. -/
def toolListContainers : Tool :=
  { name := "list-containers", description := "List Docker containers",
    task_types := ["container-ops"], priority := 10 }

/-- A second Docker-operations tool with a lower priority. -/
def toolDeployStack : Tool :=
  { name := "deploy-stack", description := "Deploy a compose stack",
    task_types := ["compose-ops"], priority := 1 }

/-- A meta-operations (discovery) tool. -/
def toolDiscover : Tool :=
  { name := "discover-tools", description := "Discover available tools",
    task_types := ["meta-ops"], priority := 0 }

/-! ### Helper lemmas -/

theorem lookup_updateSession (st : List (String × List (String × Tool)))
    (k : String) (v : List (String × Tool)) :
    (updateSession st k v).lookup k = some v := by
  induction st with
  | nil => simp [updateSession, List.lookup]
  | cons p rest ih =>
    by_cases hk : p.1 = k
    · simp [updateSession, hk, List.lookup]
    · have : (k == p.1) = false := by
        simp [hk]
        exact fun h => hk h.symm
      simp [updateSession, hk, List.lookup, this, ih]

theorem securityFilter_all_unblocked (blocklist : List String)
    (tools : List (String × Tool)) :
    ((SecurityFilter.apply blocklist tools).all
      fun p => !(blocklist.contains p.1)) = true := by
  apply List.all_eq_true.mpr
  intro p hp
  exact (List.mem_filter.mp hp).2

/-! ### Claim theorems -/

/-- C2: for every catalog, config and context, no tool whose name is in
the blocklist appears in the output of
`ToolGateController.get_available_tools`: the SecurityFilter stage runs
last and removes every blocklisted name unconditionally, so no earlier
stage can reintroduce a blocked tool. -/
theorem C2_blocklist_absolute (s : Settings) (config : FilterConfig)
    (all_tools : List (String × Tool)) (context : FilterContext) :
    (((ToolGateController.get_available_tools s config all_tools context).1).all
      fun p => !(config.blocklist.contains p.1)) = true := by
  have h := securityFilter_all_unblocked config.blocklist
    (ResourceFilter.apply config.max_tools
      (TaskTypeFilter.apply s config.task_type_allowlists all_tools context))
  simpa [ToolGateController.get_available_tools] using h

/-- C3: whenever the context carries a query and an explicitly empty
`detected_task_types`, and `STRICT_CONTEXT_LIMIT` is true or
`INTENT_FALLBACK_TO_ALL` is false, `TaskTypeFilter.apply` returns the
empty tool-set immediately — the short-circuit precedes precedence
resolution and consults only `detected_task_types`, so this holds even
when an explicit `task_type` is supplied and `INTENT_PRECEDENCE` is
"explicit". -/
theorem C3_strict_no_match_short_circuit (s : Settings)
    (task_type_allowlists : List (String × List String))
    (tools : List (String × Tool)) (context : FilterContext)
    (hq : context.query.isSome = true)
    (hd : context.detected_task_types = some [])
    (hs : s.STRICT_CONTEXT_LIMIT = true ∨ s.INTENT_FALLBACK_TO_ALL = false) :
    TaskTypeFilter.apply s task_type_allowlists tools context = [] := by
  have hcond : (context.query.isSome &&
      (context.detected_task_types == some ([] : List String)) &&
      (s.STRICT_CONTEXT_LIMIT || !s.INTENT_FALLBACK_TO_ALL)) = true := by
    rcases hs with h | h <;> simp [hq, hd, h]
  unfold TaskTypeFilter.apply
  simp [hcond]

/-- C3 witness: the short-circuit fires on a concrete context that also
carries an explicit task type, under `INTENT_PRECEDENCE = "explicit"`. -/
theorem C3_strict_no_match_short_circuit_witness :
    TaskTypeFilter.apply ⟨true, true, true, "explicit"⟩
      [("container-ops", ["list-containers"])]
      [("list-containers",
        { name := "list-containers", description := "d",
          task_types := ["container-ops"] })]
      { task_type := some "container-ops", request_id := "r1",
        query := some "frobnicate", detected_task_types := some [] } = [] :=
  C3_strict_no_match_short_circuit _ _ _ _ (by decide) rfl (Or.inl rfl)

/-- C9: `get_context_size` computes the estimated token count, raises
exactly when that count exceeds the hard threshold of 7600 with hard
enforcement active (`enforce_hard_limit` true, or unset while
`STRICT_CONTEXT_LIMIT` is true), and otherwise returns the count
unchanged — the 5000 warn threshold and an unenforced overrun only
log. -/
theorem C9_context_size_threshold (strict_setting : Bool)
    (tool_sizes : List (String × Nat)) (estimator_fallback : Bool)
    (serialEstimate : List (String × Tool) → Nat)
    (tools : List (String × Tool)) (enforce_hard_limit : Option Bool) :
    (ToolGateController.get_context_size strict_setting tool_sizes
        estimator_fallback serialEstimate tools enforce_hard_limit
      = Except.error hardLimitMsg ↔
      7600 < contextTokenCount tool_sizes estimator_fallback serialEstimate tools ∧
        enforce_hard_limit.getD strict_setting = true) ∧
    (¬(7600 < contextTokenCount tool_sizes estimator_fallback serialEstimate tools ∧
        enforce_hard_limit.getD strict_setting = true) →
      ToolGateController.get_context_size strict_setting tool_sizes
        estimator_fallback serialEstimate tools enforce_hard_limit
      = Except.ok (contextTokenCount tool_sizes estimator_fallback serialEstimate tools)) := by
  unfold ToolGateController.get_context_size
  by_cases hval : 7600 < contextTokenCount tool_sizes estimator_fallback serialEstimate tools
  · by_cases henf : enforce_hard_limit.getD strict_setting = true
    · simp [hval, henf]
    · simp only [Bool.not_eq_true] at henf
      simp [hval, henf]
  · simp [hval]

/-- C9 witness: with a cached size of 9000 tokens for the single tool and
`enforce_hard_limit = some true`, the hard limit is enforced and the
call raises; with enforcement off it returns the 9000-token count. -/
theorem C9_context_size_threshold_witness :
    ToolGateController.get_context_size false [("a", 9000)] false (fun _ => 0)
      [("a", { name := "a", description := "d", task_types := ["container-ops"] })]
      (some true) = Except.error hardLimitMsg ∧
    ToolGateController.get_context_size false [("a", 9000)] false (fun _ => 0)
      [("a", { name := "a", description := "d", task_types := ["container-ops"] })]
      none = Except.ok 9000 := by
  constructor
  · exact (C9_context_size_threshold false [("a", 9000)] false (fun _ => 0) _
      (some true)).1.mpr ⟨by decide, rfl⟩
  · exact (C9_context_size_threshold false [("a", 9000)] false (fun _ => 0)
      [("a", { name := "a", description := "d", task_types := ["container-ops"] })]
      none).2 (by decide)

/-- C8: when no task type is resolved (no query, no explicit task type,
no detected types), the task-type stage returns exactly the input minus
every tool tagged "meta-ops"; and explicitly requesting
`task_type = "meta-ops"` surfaces each meta-ops tool listed in the
configured meta-ops allowlist, whatever the precedence setting. -/
theorem C8_meta_ops_hiding (s : Settings)
    (task_type_allowlists : List (String × List String))
    (tools : List (String × Tool)) :
    (∀ context : FilterContext, context.query = none → context.task_type = none →
      context.detected_task_types = none →
      TaskTypeFilter.apply s task_type_allowlists tools context
        = tools.filter fun p => !(p.2.task_types.contains "meta-ops")) ∧
    (∀ (context : FilterContext) (name : String) (tool : Tool),
      context.query = none → context.detected_task_types = none →
      context.task_type = some "meta-ops" →
      (name, tool) ∈ tools →
      (mergeAllowlists task_type_allowlists ["meta-ops"]).contains name = true →
      tool.task_types.contains "meta-ops" = true →
      (name, tool) ∈ TaskTypeFilter.apply s task_type_allowlists tools context) := by
  constructor
  · intro context hq ht hd
    unfold TaskTypeFilter.apply
    simp [hq, ht, hd, strTruthy, listTruthy]
  · intro context name tool hq hd ht hpair hmem htt
    have hstr : strTruthy (some "meta-ops") = true := by decide
    have hmerged : (mergeAllowlists task_type_allowlists ["meta-ops"]).isEmpty = false := by
      cases hml : mergeAllowlists task_type_allowlists ["meta-ops"] with
      | nil => rw [hml] at hmem; simp [List.contains] at hmem
      | cons a l => simp
    have hmem' : name ∈ mergeAllowlists task_type_allowlists ["meta-ops"] := by
      simpa using hmem
    have htt' : "meta-ops" ∈ tool.task_types := by simpa using htt
    unfold TaskTypeFilter.apply
    cases hp : (s.INTENT_PRECEDENCE == "intent") <;>
    · simp [hq, ht, hd, hstr, hp, listTruthy, hmerged]
      exact ⟨hpair, hmem', htt'⟩

/-- C8 witness: with the default (empty) context the meta-ops tool is
hidden, and requesting `task_type = "meta-ops"` surfaces it when the
config allowlists it. -/
theorem C8_meta_ops_hiding_witness :
    TaskTypeFilter.apply ⟨false, true, true, "intent"⟩
      [("meta-ops", ["discover-tools"])]
      [("discover-tools", toolDiscover), ("list-containers", toolListContainers)]
      { request_id := "r1" }
      = [("list-containers", toolListContainers)] ∧
    ("discover-tools", toolDiscover) ∈ TaskTypeFilter.apply ⟨false, true, true, "intent"⟩
      [("meta-ops", ["discover-tools"])]
      [("discover-tools", toolDiscover), ("list-containers", toolListContainers)]
      { task_type := some "meta-ops", request_id := "r1" } := by
  constructor
  · rw [(C8_meta_ops_hiding _ _ _).1 { request_id := "r1" } rfl rfl rfl]
    decide
  · exact (C8_meta_ops_hiding _ _ _).2 { task_type := some "meta-ops", request_id := "r1" }
      "discover-tools" toolDiscover rfl rfl rfl (List.mem_cons_self _ _)
      (by decide) (by decide)

/-- C5: when the session binding exists but is the empty dict, the
`tools/call` gating treats it exactly like a missing binding — the
fallback to the registry's full catalog fires — so every catalog tool
passes the session-gating membership check for that session. -/
theorem C5_empty_binding_fallback
    (session_tools : List (String × List (String × Tool)))
    (registry_all_tools : List (String × Tool)) (sid name : String)
    (scopes : List String) (h : session_tools.lookup sid = some []) :
    handle_tools_call_gate session_tools registry_all_tools sid (some name) scopes
      = handle_tools_call_gate [] registry_all_tools sid (some name) scopes ∧
    (∀ tool, registry_all_tools.lookup name = some tool →
      handle_tools_call_gate session_tools registry_all_tools sid (some name) scopes
        = CallGateResult.scopeBlocked (-32601) ∨
      handle_tools_call_gate session_tools registry_all_tools sid (some name) scopes
        = CallGateResult.proceed tool) := by
  constructor
  · unfold handle_tools_call_gate
    simp [h, List.lookup]
  · intro tool htool
    unfold handle_tools_call_gate
    simp only [h, Option.getD_some, List.isEmpty_nil, if_true, htool]
    split
    · exact Or.inl rfl
    · exact Or.inr rfl

/-- C5 witness: a stored-empty binding for session "s1" lets the catalog
tool "list-containers" pass the gating check. -/
theorem C5_empty_binding_fallback_witness :
    handle_tools_call_gate [("s1", [])] [("list-containers", toolListContainers)]
      "s1" (some "list-containers") []
      = CallGateResult.scopeBlocked (-32601) ∨
    handle_tools_call_gate [("s1", [])] [("list-containers", toolListContainers)]
      "s1" (some "list-containers") []
      = CallGateResult.proceed toolListContainers :=
  (C5_empty_binding_fallback [("s1", [])] _ "s1" "list-containers" [] rfl).2
    toolListContainers rfl

/-- C1 (amended): when the binding stored by the last `tools/list` for
the session is non-empty, a `tools/call` naming a tool outside it
returns the JSON-RPC method-not-found error (code -32601) from the
session-gating check, before any service dispatch; a `tools/call`
naming a tool inside it passes the gating check, subject only to the
later scope validation. -/
theorem C1_session_gating_method_not_found
    (session_tools : List (String × List (String × Tool)))
    (registry_all_tools : List (String × Tool)) (sid name : String)
    (scopes : List String) (R : List (String × Tool))
    (hbind : session_tools.lookup sid = some R) (hne : R ≠ []) :
    (R.lookup name = none →
      handle_tools_call_gate session_tools registry_all_tools sid (some name) scopes
        = CallGateResult.sessionGateBlocked (-32601) (R.map Prod.fst)) ∧
    (∀ tool, R.lookup name = some tool →
      handle_tools_call_gate session_tools registry_all_tools sid (some name) scopes
        = CallGateResult.scopeBlocked (-32601) ∨
      handle_tools_call_gate session_tools registry_all_tools sid (some name) scopes
        = CallGateResult.proceed tool) := by
  have hemp : R.isEmpty = false := List.isEmpty_eq_false.mpr hne
  constructor
  · intro hnone
    unfold handle_tools_call_gate
    simp [hbind, hemp, hnone]
  · intro tool htool
    unfold handle_tools_call_gate
    simp only [hbind, Option.getD_some, hemp, Bool.false_eq_true, if_false, htool]
    split
    · exact Or.inl rfl
    · exact Or.inr rfl

/-- C1 witness: against the non-empty binding for session "s1", the
unknown name "frobnicate" is rejected with -32601 and the bound name
"list-containers" passes the gating check. -/
theorem C1_session_gating_method_not_found_witness :
    (handle_tools_call_gate [("s1", [("list-containers", toolListContainers)])]
      [("list-containers", toolListContainers), ("deploy-stack", toolDeployStack)]
      "s1" (some "frobnicate") []
      = CallGateResult.sessionGateBlocked (-32601) ["list-containers"]) ∧
    (handle_tools_call_gate [("s1", [("list-containers", toolListContainers)])]
      [("list-containers", toolListContainers), ("deploy-stack", toolDeployStack)]
      "s1" (some "list-containers") []
      = CallGateResult.scopeBlocked (-32601) ∨
     handle_tools_call_gate [("s1", [("list-containers", toolListContainers)])]
      [("list-containers", toolListContainers), ("deploy-stack", toolDeployStack)]
      "s1" (some "list-containers") []
      = CallGateResult.proceed toolListContainers) := by
  constructor
  · exact (C1_session_gating_method_not_found
      [("s1", [("list-containers", toolListContainers)])]
      [("list-containers", toolListContainers), ("deploy-stack", toolDeployStack)]
      "s1" "frobnicate" [] [("list-containers", toolListContainers)]
      (by decide) (by decide)).1 (by decide)
  · exact (C1_session_gating_method_not_found
      [("s1", [("list-containers", toolListContainers)])]
      [("list-containers", toolListContainers), ("deploy-stack", toolDeployStack)]
      "s1" "list-containers" [] [("list-containers", toolListContainers)]
      (by decide) (by decide)).2 toolListContainers (by decide)

/-- C1 counterexample to the claim as stated: a `tools/list` with the
unknown explicit task type "bogus" under strict settings succeeds and
stores the empty set as the session's result R; the subsequent
`tools/call` for "list-containers" — a name not in R — is not rejected
with -32601 but passes the gating check, because the empty binding
falls back to the full catalog. -/
theorem C1_empty_result_counterexample :
    handle_tools_list ⟨true, true, true, "intent"⟩ none ⟨[], 10, []⟩
      [("list-containers", toolListContainers)]
      (some "bogus") none none "r1" "s1" [] []
      = ([("s1", [])], []) ∧
    handle_tools_call_gate [("s1", [])] [("list-containers", toolListContainers)]
      "s1" (some "list-containers") []
      = CallGateResult.proceed toolListContainers := by
  decide

/-- C7 (amended): every `tools/list` call that proceeds past the strict
no-match early return overwrites the session binding with the final
filtered set it returns; the strict no-match path alone returns the
empty set without touching the binding. -/
theorem C7_binding_overwrite (s : Settings)
    (classifier : Option (String → List String)) (config : FilterConfig)
    (all_tools : List (String × Tool))
    (params_task_type params_query task_type_header : Option String)
    (request_id session_id : String) (scopes : List String)
    (session_tools : List (String × List (String × Tool)))
    (h : noMatchStrict s
        (resolveClassification s classifier params_task_type params_query task_type_header).2.1
        (resolveClassification s classifier params_task_type params_query task_type_header).2.2.2
        (resolveClassification s classifier params_task_type params_query task_type_header).2.2.1
        = false) :
    ((handle_tools_list s classifier config all_tools params_task_type params_query
        task_type_header request_id session_id scopes session_tools).1).lookup session_id
      = some (handle_tools_list s classifier config all_tools params_task_type params_query
        task_type_header request_id session_id scopes session_tools).2 := by
  unfold handle_tools_list
  simp only [h, Bool.false_eq_true, if_false]
  exact lookup_updateSession _ _ _

/-- C7 witness: a plain `tools/list` (no query, no task type) on a fresh
state stores exactly the returned set against the session. -/
theorem C7_binding_overwrite_witness :
    ((handle_tools_list ⟨false, true, true, "intent"⟩ none ⟨[], 10, []⟩
        [("list-containers", toolListContainers)]
        none none none "r1" "s1" [] []).1).lookup "s1"
      = some (handle_tools_list ⟨false, true, true, "intent"⟩ none ⟨[], 10, []⟩
        [("list-containers", toolListContainers)]
        none none none "r1" "s1" [] []).2 :=
  C7_binding_overwrite _ none _ _ none none none "r1" "s1" [] [] (by decide)

/-- C7 counterexample to the claim as stated: under strict settings a
query that classifies to no task types makes `tools/list` succeed with
the empty result, yet the stale prior binding for the session survives
untouched instead of being overwritten with that empty set. -/
theorem C7_strict_path_stale_binding :
    (handle_tools_list ⟨true, true, true, "intent"⟩ (some fun _ => []) ⟨[], 10, []⟩
        [("list-containers", toolListContainers)]
        none (some "frobnicate") none "r1" "s1" []
        [("s1", [("deploy-stack", toolDeployStack)])]).2 = [] ∧
    ((handle_tools_list ⟨true, true, true, "intent"⟩ (some fun _ => []) ⟨[], 10, []⟩
        [("list-containers", toolListContainers)]
        none (some "frobnicate") none "r1" "s1" []
        [("s1", [("deploy-stack", toolDeployStack)])]).1).lookup "s1"
      = some [("deploy-stack", toolDeployStack)] ∧
    ([("deploy-stack", toolDeployStack)] : List (String × Tool)) ≠ [] := by
  refine ⟨by decide, by decide, by decide⟩

/-- C10: a caller presenting the empty scope set is never restricted by
scope: `tools/list` behaves exactly as for a caller holding the "admin"
scope, and the `tools/call` gating never returns the scope error for
it. -/
theorem C10_empty_scopes_unrestricted :
    (∀ (s : Settings) (classifier : Option (String → List String))
        (config : FilterConfig) (all_tools : List (String × Tool))
        (ptt pq tth : Option String) (rid sid : String)
        (st : List (String × List (String × Tool))),
      handle_tools_list s classifier config all_tools ptt pq tth rid sid [] st
        = handle_tools_list s classifier config all_tools ptt pq tth rid sid ["admin"] st) ∧
    (∀ (st : List (String × List (String × Tool)))
        (registry : List (String × Tool)) (sid : String) (tool_name : Option String),
      handle_tools_call_gate st registry sid tool_name []
        = handle_tools_call_gate st registry sid tool_name ["admin"]) ∧
    (∀ (st : List (String × List (String × Tool)))
        (registry : List (String × Tool)) (sid : String) (tool_name : Option String)
        (c : Int),
      handle_tools_call_gate st registry sid tool_name ([] : List String)
        ≠ CallGateResult.scopeBlocked c) := by
  refine ⟨?_, ?_, ?_⟩
  · intro s classifier config all_tools ptt pq tth rid sid st
    rfl
  · intro st registry sid tool_name
    cases tool_name with
    | none => rfl
    | some name => rfl
  · intro st registry sid tool_name c
    cases tool_name with
    | none => simp [handle_tools_call_gate]
    | some name =>
      unfold handle_tools_call_gate
      simp only [List.isEmpty_eq_true]
      cases hl : List.lookup name
          (if (st.lookup sid).getD [] = [] then registry
           else (st.lookup sid).getD []) with
      | none => simp [hl]
      | some tool => simp [hl]

/-- C10 witness: a concrete scope-free call is not scope-blocked. -/
theorem C10_empty_scopes_unrestricted_witness :
    handle_tools_call_gate [("s1", [("list-containers", toolListContainers)])]
      [("list-containers", toolListContainers)] "s1" (some "list-containers") []
      ≠ CallGateResult.scopeBlocked (-32601) :=
  C10_empty_scopes_unrestricted.2.2 _ _ "s1" (some "list-containers") (-32601)

theorem charListLe_total (a : List Char) : ∀ b, charListLe a b = true ∨ charListLe b a = true := by
  induction a with
  | nil => intro b; left; rfl
  | cons x xs ih =>
    intro b
    cases b with
    | nil => right; rfl
    | cons y ys =>
      rcases lt_trichotomy x y with h | h | h
      · left; simp [charListLe]; exact Or.inl h
      · subst h
        rcases ih ys with h2 | h2
        · left; simp [charListLe, h2]
        · right; simp [charListLe, h2]
      · right; simp [charListLe]; exact Or.inl h

theorem charListLe_trans (a : List Char) :
    ∀ b c, charListLe a b = true → charListLe b c = true → charListLe a c = true := by
  induction a with
  | nil => intro b c _ _; rfl
  | cons x xs ih =>
    intro b c h1 h2
    cases b with
    | nil => simp [charListLe] at h1
    | cons y ys =>
      cases c with
      | nil => simp [charListLe] at h2
      | cons z zs =>
        simp only [charListLe, Bool.or_eq_true, Bool.and_eq_true, decide_eq_true_eq] at h1 h2 ⊢
        rcases h1 with h1 | ⟨hxy, h1⟩
        · rcases h2 with h2 | ⟨hyz, h2⟩
          · exact Or.inl (lt_trans h1 h2)
          · subst hyz; exact Or.inl h1
        · subst hxy
          rcases h2 with h2 | ⟨hyz, h2⟩
          · exact Or.inl h2
          · subst hyz; exact Or.inr ⟨rfl, ih ys zs h1 h2⟩

theorem toolSortLe_total (a b : String × Tool) :
    toolSortLe a b = true ∨ toolSortLe b a = true := by
  unfold toolSortLe
  rcases lt_trichotomy a.2.priority b.2.priority with h | h | h
  · right; simp [h]
  · rcases charListLe_total a.1.data b.1.data with h2 | h2
    · left; simp [h, h2]
    · right; simp [h, h2]
  · left; simp [h]

theorem toolSortLe_trans (a b c : String × Tool) (h1 : toolSortLe a b = true)
    (h2 : toolSortLe b c = true) : toolSortLe a c = true := by
  unfold toolSortLe at h1 h2 ⊢
  simp only [Bool.or_eq_true, Bool.and_eq_true, decide_eq_true_eq] at h1 h2 ⊢
  rcases h1 with h1 | ⟨he1, hc1⟩
  · rcases h2 with h2 | ⟨he2, hc2⟩
    · exact Or.inl (lt_trans h2 h1)
    · exact Or.inl (he2 ▸ h1)
  · rcases h2 with h2 | ⟨he2, hc2⟩
    · exact Or.inl (he1 ▸ h2)
    · exact Or.inr ⟨he1.trans he2, charListLe_trans _ _ _ hc1 hc2⟩

instance : IsTotal (String × Tool) toolSortRel := ⟨toolSortLe_total⟩

instance : IsTrans (String × Tool) toolSortRel := ⟨toolSortLe_trans⟩

/-- C6: `ResourceFilter.apply` is the identity on a tool-set no larger
than the configured max; on an oversized set it returns exactly the
first `max_tools` entries of the priority-descending, name-ascending
sort, so the output size is exactly `max_tools`, every kept tool
compares no worse than every dropped tool under the sort order, and
re-applying the filter leaves the truncated set unchanged. -/
theorem C6_resource_filter_truncation (max_tools : Nat)
    (tools : List (String × Tool)) :
    (tools.length ≤ max_tools → ResourceFilter.apply max_tools tools = tools) ∧
    (max_tools < tools.length →
      (ResourceFilter.apply max_tools tools).length = max_tools ∧
      ResourceFilter.apply max_tools tools = (sortToolItems tools).take max_tools ∧
      (∀ p ∈ ResourceFilter.apply max_tools tools,
        ∀ q ∈ (sortToolItems tools).drop max_tools, toolSortLe p q = true) ∧
      ResourceFilter.apply max_tools (ResourceFilter.apply max_tools tools)
        = ResourceFilter.apply max_tools tools) := by
  constructor
  · intro h
    unfold ResourceFilter.apply
    simp [h]
  · intro h
    have hnle : ¬ tools.length ≤ max_tools := not_le.mpr h
    have happ : ResourceFilter.apply max_tools tools
        = (sortToolItems tools).take max_tools := by
      unfold ResourceFilter.apply
      simp [hnle]
    have hlen : ((sortToolItems tools).take max_tools).length = max_tools := by
      rw [List.length_take]
      unfold sortToolItems
      rw [List.length_insertionSort]
      exact min_eq_left h.le
    refine ⟨by rw [happ]; exact hlen, happ, ?_, ?_⟩
    · intro p hp q hq
      have hsorted : List.Sorted toolSortRel (sortToolItems tools) :=
        List.sorted_insertionSort toolSortRel tools
      have hpair : List.Pairwise toolSortRel
          ((sortToolItems tools).take max_tools ++ (sortToolItems tools).drop max_tools) := by
        rw [List.take_append_drop]
        exact hsorted
      rw [happ] at hp
      exact (List.pairwise_append.mp hpair).2.2 p hp q hq
    · rw [happ]
      unfold ResourceFilter.apply
      simp [hlen]

/-- C6 witness: with max 2 the two-tool set passes unchanged; with max 1
the output has exactly one tool. -/
theorem C6_resource_filter_truncation_witness :
    ResourceFilter.apply 2
      [("list-containers", toolListContainers), ("deploy-stack", toolDeployStack)]
      = [("list-containers", toolListContainers), ("deploy-stack", toolDeployStack)] ∧
    (ResourceFilter.apply 1
      [("list-containers", toolListContainers), ("deploy-stack", toolDeployStack)]).length = 1 := by
  constructor
  · exact (C6_resource_filter_truncation 2 _).1 (by decide)
  · exact ((C6_resource_filter_truncation 1 _).2 (by decide)).1

theorem searchWBAux_implies_containsSub (kw : List Char) :
    ∀ (rest : List Char) (pre : Option Char),
      searchWBAux kw pre rest = true → containsSub kw rest = true := by
  intro rest
  induction rest with
  | nil =>
    intro pre h
    unfold searchWBAux matchesWBAt at h
    unfold containsSub
    simp only [Bool.and_eq_true] at h
    exact h.1.1
  | cons c rs ih =>
    intro pre h
    unfold searchWBAux at h
    rw [Bool.or_eq_true] at h
    rcases h with h1 | h2
    · unfold matchesWBAt at h1
      simp only [Bool.and_eq_true] at h1
      unfold containsSub
      simp [h1.1.1]
    · unfold containsSub
      simp [ih (some c) h2]

/-- C4 (amended): every keyword — single-word or multi-word — matches via
plain case-insensitive substring containment; the word-boundary branch
for single-word keywords is a redundant extra check, so the single-word
keyword "container" does match inside the longer token "containerize". -/
theorem C4_keyword_substring_semantics :
    (∀ (query : List Char) (keywords : List String),
      matchesKeywords query keywords
        = keywords.any fun keyword =>
            containsSub (keyword.data.map Char.toLower) query) ∧
    classify_intent [("container-ops", ["container"])] "containerize"
      = ["container-ops"] := by
  constructor
  · intro query keywords
    unfold matchesKeywords
    induction keywords with
    | nil => rfl
    | cons k ks ih =>
      simp only [List.any_cons, ih]
      congr 1
      cases hc : containsSub (k.data.map Char.toLower) query
      · cases hw : wordBoundarySearch (k.data.map Char.toLower) query
        · simp [hw]
        · have := searchWBAux_implies_containsSub (k.data.map Char.toLower) query none
            (by simpa [wordBoundarySearch] using hw)
          rw [hc] at this
          exact absurd this (by simp)
      · simp
  · decide

/-- C4 counterexample to the claim as stated: "container" is a
single-word keyword, the word-boundary regex does not match it inside
"containerize", yet `classify_intent` still detects "container-ops" for
the query "containerize" — the substring check applies to single-word
keywords too. -/
theorem C4_substring_match_counterexample :
    classify_intent [("container-ops", ["container"])] "containerize"
      = ["container-ops"] ∧
    countWords "container".data false = 1 ∧
    wordBoundarySearch ("container".data.map Char.toLower) "containerize".data
      = false := by
  decide

end DockerSwarmMCP
